import Mathlib

/-!
# Verification of the snarkOS TCP connection-management core

A shallow embedding of `node/tcp/src/tcp.rs` (the `Tcp` stack: connect,
disconnect, admission, the protocol pipeline, shutdown and construction)
and of `node/messages/src/ping.rs` (the `Ping` wire message), together
with theorems settling the specification's claims about them.

Shared mutable state (`connecting`, `connections`, `known_peers`,
`tasks`) is modelled as an explicit `TcpState` record threaded through
the operations; each operation is translated statement by statement from
the Rust source.  Handler slots are modelled as functions returning the
value observed on the reply oneshot: `none` stands for a dropped reply
endpoint, `some r` for a reply `r`.
-/

namespace SnarkOS

/-- Rust `std::net::IpAddr`: a v4 or v6 IP address. -/
inductive IpAddr where
  | v4 (a b c d : Nat)
  | v6 (n : Nat)
  deriving DecidableEq, Repr

/-- `IpAddr::is_loopback`: v4 loopback is `127.x.x.x`, v6 loopback is `::1`. -/
def IpAddr.is_loopback : IpAddr → Bool
  | .v4 a _ _ _ => a == 127
  | .v6 n => n == 1

/-- Rust `std::net::SocketAddr`: an IP address together with a port. -/
structure SocketAddr where
  ip : IpAddr
  port : Nat
  deriving DecidableEq, Repr

/-- `ConnectionSide` from `connections.rs`: who established the connection. -/
inductive ConnectionSide where
  | Initiator
  | Responder
  deriving DecidableEq, Repr

/-- `impl Not for ConnectionSide`: negation swaps the two sides. -/
def ConnectionSide.not : ConnectionSide → ConnectionSide
  | .Initiator => .Responder
  | .Responder => .Initiator

/-- A tokio `TcpStream`, abstracted to an identifier. -/
abbrev Stream := Nat

/-- A tokio `JoinHandle`, abstracted to an identifier. -/
abbrev TaskHandle := Nat

/-- An `io::Error`, reduced to its kind (the only part the code inspects). -/
inductive IoError where
  | addrInUse
  | permissionDenied
  | alreadyExists
  | brokenPipe
  | addrNotAvailable
  | osError (code : Nat)
  deriving DecidableEq, Repr

/-- `Connection` from `connections.rs`: remote address, the peer's side,
the mutually exclusive unsplit stream / split halves, attached task
handles, and the optional readiness notifier (modelled as a flag for the
oneshot sender being present). -/
structure Connection where
  addr : SocketAddr
  side : ConnectionSide
  stream : Option Stream
  reader : Option Stream
  writer : Option Stream
  tasks : List TaskHandle
  readiness_notifier : Option Unit
  deriving DecidableEq, Repr

/-- `Connection::new(addr, stream, side)`: holds the unsplit stream, no
halves, no tasks, no notifier. -/
def Connection.new (addr : SocketAddr) (stream : Stream) (side : ConnectionSide) : Connection :=
  { addr := addr, side := side, stream := some stream,
    reader := none, writer := none, tasks := [], readiness_notifier := none }

/-- `Config` from `config.rs` (the fields `tcp.rs` consumes). -/
structure Config where
  name : Option String
  listener_ip : Option IpAddr
  desired_listening_port : Option Nat
  allow_random_port : Bool
  max_connections : Nat
  deriving DecidableEq, Repr

/-- The shared mutable state of `InnerTcp`: the connecting set, the active
connections, the known-peers map (here: the set of tracked addresses with
their failure counters), the node-level task list, and a ghost record of
every task handle that has been aborted. -/
structure TcpState where
  listening_addr : Option SocketAddr
  max_connections : Nat
  connecting : List SocketAddr
  connections : List Connection
  known_peers : List (SocketAddr × Nat)
  tasks : List TaskHandle
  aborted : List TaskHandle
  deriving DecidableEq, Repr

namespace TcpState

/-- `Connections::is_connected` -/
def is_connected (st : TcpState) (addr : SocketAddr) : Bool :=
  st.connections.any (fun c => c.addr == addr)

/-- `Tcp::num_connected` -/
def num_connected (st : TcpState) : Nat :=
  st.connections.length

/-- `Tcp::num_connecting` -/
def num_connecting (st : TcpState) : Nat :=
  st.connecting.length

/-- `Tcp::connected_addrs` -/
def connected_addrs (st : TcpState) : List SocketAddr :=
  st.connections.map (·.addr)

/-- `KnownPeers::add`: insert the address with fresh stats if absent. -/
def known_peers_add (st : TcpState) (addr : SocketAddr) : TcpState :=
  if st.known_peers.any (fun p => p.1 == addr) then st
  else { st with known_peers := st.known_peers ++ [(addr, 0)] }

/-- `KnownPeers::remove` -/
def known_peers_remove (st : TcpState) (addr : SocketAddr) : TcpState :=
  { st with known_peers := st.known_peers.filter (fun p => !(p.1 == addr)) }

/-- `KnownPeers::register_failure`: bump the failure counter. -/
def register_failure (st : TcpState) (addr : SocketAddr) : TcpState :=
  { st with known_peers :=
      st.known_peers.map (fun p => if p.1 == addr then (p.1, p.2 + 1) else p) }

/-- Membership in the known-peers map. -/
def known (st : TcpState) (addr : SocketAddr) : Bool :=
  st.known_peers.any (fun p => p.1 == addr)

/-- The failure counter stored for an address (0 if untracked). -/
def failures (st : TcpState) (addr : SocketAddr) : Nat :=
  match st.known_peers.find? (fun p => p.1 == addr) with
  | some p => p.2
  | none => 0

/-- `HashSet::insert` on the connecting set: a no-op when the address is
already present. -/
def connecting_insert (st : TcpState) (addr : SocketAddr) : TcpState :=
  if st.connecting.contains addr then st
  else { st with connecting := addr :: st.connecting }

/-- `Connections::add`: `HashMap::insert` keyed on the connection's
address (replaces any previous entry for that address). -/
def connections_add (st : TcpState) (conn : Connection) : TcpState :=
  { st with connections :=
      st.connections.filter (fun c => !(c.addr == conn.addr)) ++ [conn] }

end TcpState

/-- The value the core observes on a handler's reply oneshot: `none` means
the handler dropped the reply endpoint, `some r` means it replied `r`. -/
def HandlerReply := Option (Except IoError Connection)

/-- A protocol handler slot's behaviour, as seen from the core: trigger it
with a connection, observe the reply oneshot. -/
def Handler := Connection → HandlerReply

/-- The `Protocols` slots of `protocols.rs` that `enable_protocols` and
`disconnect` consult.  The `disconnect` slot only acknowledges, so it is
modelled by its presence. -/
structure Protocols where
  handshake : Option Handler
  reading : Option Handler
  writing : Option Handler
  disconnect : Bool

/-- One arm of the `enable_protocol!` macro in `Tcp::enable_protocols`:
if the slot holds a handler, trigger it and await the reply oneshot —
`Ok(Ok(conn))` yields the connection, a dropped sender (`Err(_)`) becomes
`BrokenPipe`, and `Ok(Err(e))` is returned as is; an empty slot passes
the connection through. -/
def enable_protocol (slot : Option Handler) (conn : Connection) : Except IoError Connection :=
  match slot with
  | some handler =>
    match handler conn with
    | some (.ok conn) => .ok conn
    | none => .error .brokenPipe
    | some (.error e) => .error e
  | none => .ok conn

/-- The split step in `Tcp::enable_protocols`: after the handshake, if
the connection still holds the unsplit stream, `split` it and move the
two halves into `reader` and `writer`. -/
def split_stream (conn : Connection) : Connection :=
  match conn.stream with
  | some stream =>
    { conn with stream := none, reader := some stream, writer := some stream }
  | none => conn

/-- `Tcp::enable_protocols`: enact handshake, split the stream, then
reading and writing; the first failing stage aborts the pipeline. -/
def enable_protocols (p : Protocols) (conn : Connection) : Except IoError Connection :=
  match enable_protocol p.handshake conn with
  | .error e => .error e
  | .ok conn =>
    let conn := split_stream conn
    match enable_protocol p.reading conn with
    | .error e => .error e
    | .ok conn =>
      match enable_protocol p.writing conn with
      | .error e => .error e
      | .ok conn => .ok conn

/-- `Tcp::can_add_connection`: reject when the active count, or the
active plus pending count, has reached `max_connections`. -/
def can_add_connection (st : TcpState) : Bool :=
  let num_connected := st.num_connected
  let limit := st.max_connections
  if num_connected ≥ limit then
    false
  else if num_connected + st.num_connecting ≥ limit then
    false
  else
    true

/-- `Tcp::adapt_stream`: register the peer, build a `Connection` whose
side is the negation of our own, enact the protocols, take the readiness
notifier, install the connection in the active map, and only then release
the address from the connecting set.  The caller handles errors. -/
def adapt_stream (p : Protocols) (st : TcpState) (stream : Stream) (peer_addr : SocketAddr)
    (own_side : ConnectionSide) : Except IoError Unit × TcpState :=
  let st := st.known_peers_add peer_addr
  let connection := Connection.new peer_addr stream own_side.not
  match enable_protocols p connection with
  | .error e => (.error e, st)
  | .ok connection =>
    let connection := { connection with readiness_notifier := none }
    let st := st.connections_add connection
    let st := { st with connecting := st.connecting.erase peer_addr }
    (.ok (), st)

/-- The sequence of shared-state snapshots an observer can see during
`Tcp::adapt_stream`, one per release of a lock on the shared state: after
the known-peers registration, after the connection is installed in the
active map, and after the address is released from the connecting set.
On a pipeline error only the first snapshot is reached. -/
def adapt_stream_trace (p : Protocols) (st : TcpState) (stream : Stream)
    (peer_addr : SocketAddr) (own_side : ConnectionSide) : List TcpState :=
  let st1 := st.known_peers_add peer_addr
  let connection := Connection.new peer_addr stream own_side.not
  match enable_protocols p connection with
  | .error _ => [st1]
  | .ok connection =>
    let connection := { connection with readiness_notifier := none }
    let st2 := st1.connections_add connection
    let st3 := { st2 with connecting := st2.connecting.erase peer_addr }
    [st1, st2, st3]

/-- The self-dial guard at the top of `Tcp::connect`: the target equals
our listening address, or is loopback with our listening port. -/
def is_self_connect (st : TcpState) (addr : SocketAddr) : Bool :=
  match st.listening_addr with
  | some listening_addr =>
    addr == listening_addr ||
      (addr.ip.is_loopback && addr.port == listening_addr.port)
  | none => false

/-- `Tcp::connect`: self-dial check, admission, duplicate checks, insert
into the connecting set, dial (the dial's outcome is supplied as `dial`),
then the adapt pipeline with side `Initiator`; on dial or pipeline
failure the address is removed from the connecting set again, and a
pipeline failure is also recorded in the known peers. -/
def connect (p : Protocols) (st : TcpState) (addr : SocketAddr)
    (dial : Except IoError Stream) : Except IoError Unit × TcpState :=
  if is_self_connect st addr then
    (.error .addrInUse, st)
  else if !can_add_connection st then
    (.error .permissionDenied, st)
  else if st.is_connected addr then
    (.error .alreadyExists, st)
  else if st.connecting.contains addr then
    (.error .alreadyExists, st)
  else
    let st := { st with connecting := addr :: st.connecting }
    match dial with
    | .error e => (.error e, { st with connecting := st.connecting.erase addr })
    | .ok stream =>
      match adapt_stream p st stream addr .Initiator with
      | (.ok (), st) => (.ok (), st)
      | (.error e, st) =>
        let st := { st with connecting := st.connecting.erase addr }
        let st := st.register_failure addr
        (.error e, st)

/-- `Tcp::disconnect`: trigger the disconnect handler if set and the peer
is connected, remove the connection from the active map and, if it was
there, abort its tasks in reverse order and drop the known-peers entry
precisely when the connection's stored side is `Initiator` (the peer
dialed us); return whether a connection was removed. -/
def disconnect (p : Protocols) (st : TcpState) (addr : SocketAddr) : Bool × TcpState :=
  let conn := st.connections.find? (fun c => c.addr == addr)
  let st := { st with connections := st.connections.filter (fun c => !(c.addr == addr)) }
  match conn with
  | some conn =>
    let st := { st with aborted := st.aborted ++ conn.tasks.reverse }
    let st :=
      if conn.side == ConnectionSide.Initiator then
        st.known_peers_remove conn.addr
      else
        st
    (true, st)
  | none => (false, st)

/-- The disconnect loop inside `Tcp::shut_down`. -/
def disconnect_all (p : Protocols) (st : TcpState) : List SocketAddr → TcpState
  | [] => st
  | addr :: rest => disconnect_all p (disconnect p st addr).2 rest

/-- `Tcp::shut_down`: take the task list, abort the listener (the first
task), disconnect every connected peer, then abort the remaining tasks. -/
def shut_down (p : Protocols) (st : TcpState) : TcpState :=
  let tasks := st.tasks
  let st := { st with tasks := [] }
  let st :=
    match tasks with
    | listening_task :: _ => { st with aborted := st.aborted ++ [listening_task] }
    | [] => st
  let st := disconnect_all p st st.connected_addrs
  { st with aborted := st.aborted ++ tasks.drop 1 }

/-- `Tcp::handle_connection` (inbound accept): admission check — on
denial the stream is dropped and nothing changes; otherwise the address
is inserted into the connecting set and the adapt task is spawned with
side `Responder` (the spawned task's outcome is supplied as part of the
returned continuation state: on failure it removes the address from the
connecting set and records a failure). -/
def handle_connection (p : Protocols) (st : TcpState) (stream : Stream)
    (addr : SocketAddr) : TcpState :=
  if !can_add_connection st then
    st
  else
    let st := st.connecting_insert addr
    match adapt_stream p st stream addr .Responder with
    | (.ok (), st) => st
    | (.error _, st) =>
      let st := { st with connecting := st.connecting.erase addr }
      st.register_failure addr

/-- The outcome of the listener-procuring phase of `Tcp::new`: a bound
listener, a propagated bind error, or the `panic!` on the invalid
configuration. -/
inductive BindOutcome where
  | ok (listener : Option SocketAddr)
  | err (e : IoError)
  | panicked
  deriving DecidableEq, Repr

/-- The listener-procuring logic of `Tcp::new`, with the OS bind call
supplied as the function `bind`: with a desired port, try it and either
propagate the failure or, when `allow_random_port` is set, fall back to
port `0`; with no desired port, bind port `0` if `allow_random_port` is
set and otherwise panic; with no `listener_ip`, no listener. -/
def procure_listener (config : Config) (bind : SocketAddr → Except IoError SocketAddr) :
    BindOutcome :=
  match config.listener_ip with
  | some listener_ip =>
    match config.desired_listening_port with
    | some port =>
      match bind ⟨listener_ip, port⟩ with
      | .ok listener => .ok (some listener)
      | .error e =>
        if config.allow_random_port then
          match bind ⟨listener_ip, 0⟩ with
          | .ok listener => .ok (some listener)
          | .error e' => .err e'
        else
          .err e
    | none =>
      if config.allow_random_port then
        match bind ⟨listener_ip, 0⟩ with
        | .ok listener => .ok (some listener)
        | .error e' => .err e'
      else
        .panicked
  | none => .ok none

/-!
## The `Ping` wire message (`node/messages/src/ping.rs`)

`Ping` carries `version: u32`, `fork_depth: u32`, `node_type` and
`status`; (de)serialization goes through `bincode` on the 4-tuple of the
fields.  `bincode`'s default options encode a `u32` as 4 little-endian
bytes and a fieldless `serde` enum as its `u32` variant index.
-/

/-- Modelled from the spec: the `NodeType` enum is out of scope of the
given sources (it lives in the external `snarkvm` crate); the spec only
requires a fieldless node-type enum, encoded by `bincode` as its variant
index. -/
inductive NodeType where
  | Client
  | Miner
  | Beacon
  | Validator
  deriving DecidableEq, Repr

/-- The `serde` variant index of a `NodeType`. -/
def NodeType.tag : NodeType → Nat
  | .Client => 0
  | .Miner => 1
  | .Beacon => 2
  | .Validator => 3

/-- Decode a variant index back into a `NodeType`. -/
def NodeType.ofTag : Nat → Option NodeType
  | 0 => some .Client
  | 1 => some .Miner
  | 2 => some .Beacon
  | 3 => some .Validator
  | _ => none

/-- Modelled from the spec: the `Status` enum is out of scope of the
given sources (it lives outside the provided files); the spec only
requires a fieldless status enum, encoded by `bincode` as its variant
index. -/
inductive Status where
  | Ready
  | Mining
  | Peering
  | Syncing
  | ShuttingDown
  deriving DecidableEq, Repr

/-- The `serde` variant index of a `Status`. -/
def Status.tag : Status → Nat
  | .Ready => 0
  | .Mining => 1
  | .Peering => 2
  | .Syncing => 3
  | .ShuttingDown => 4

/-- Decode a variant index back into a `Status`. -/
def Status.ofTag : Nat → Option Status
  | 0 => some .Ready
  | 1 => some .Mining
  | 2 => some .Peering
  | 3 => some .Syncing
  | 4 => some .ShuttingDown
  | _ => none

/-- The `Ping` message: `version` and `fork_depth` are `u32` values,
represented as naturals below `2^32`. -/
structure Ping where
  version : Nat
  fork_depth : Nat
  node_type : NodeType
  status : Status
  deriving DecidableEq, Repr

/-- The 4 little-endian bytes `bincode` writes for a `u32`. -/
def u32LE (n : Nat) : List Nat :=
  [n % 256, n / 256 % 256, n / 65536 % 256, n / 16777216 % 256]

/-- Read 4 little-endian bytes back into a `u32` value. -/
def readU32LE : List Nat → Option (Nat × List Nat)
  | b0 :: b1 :: b2 :: b3 :: rest =>
    some (b0 + 256 * b1 + 65536 * b2 + 16777216 * b3, rest)
  | _ => none

namespace Ping

/-- `Ping::serialize`: `bincode::serialize_into` of the tuple
`(version, fork_depth, node_type, status)`. -/
def serialize (p : Ping) : List Nat :=
  u32LE p.version ++ u32LE p.fork_depth ++ u32LE p.node_type.tag ++ u32LE p.status.tag

/-- `Ping::deserialize`: `bincode::deserialize_from` of the tuple, then
repacking into the record; any decoding failure is an error. -/
def deserialize (bytes : List Nat) : Except String Ping := do
  let some (version, bytes) := readU32LE bytes
    | .error "unexpected end of input"
  let some (fork_depth, bytes) := readU32LE bytes
    | .error "unexpected end of input"
  let some (node_type_tag, bytes) := readU32LE bytes
    | .error "unexpected end of input"
  let some (status_tag, _) := readU32LE bytes
    | .error "unexpected end of input"
  let some node_type := NodeType.ofTag node_type_tag
    | .error "invalid node type"
  let some status := Status.ofTag status_tag
    | .error "invalid status"
  .ok { version := version, fork_depth := fork_depth, node_type := node_type, status := status }

end Ping

/-! ## Concrete fixtures used by witnesses and counterexamples -/

/-- An empty protocol table: no handlers installed. -/
def noProtocols : Protocols :=
  { handshake := none, reading := none, writing := none, disconnect := false }

/-- A sample remote peer address. -/
def peerA : SocketAddr := ⟨.v4 10 0 0 1, 4130⟩

/-- A baseline state: no listener, capacity 100, all collections empty. -/
def emptyState : TcpState :=
  { listening_addr := none, max_connections := 100, connecting := [],
    connections := [], known_peers := [], tasks := [], aborted := [] }

/-- A connection whose stored side is `Initiator`: the peer dialed us. -/
def connFromPeer : Connection :=
  { addr := peerA, side := .Initiator, stream := none, reader := some 1,
    writer := some 1, tasks := [], readiness_notifier := none }

/-- A connection whose stored side is `Responder`: we dialed the peer. -/
def connToPeer : Connection :=
  { addr := peerA, side := .Responder, stream := none, reader := some 1,
    writer := some 1, tasks := [], readiness_notifier := none }

/-- A state holding the connection from a peer that dialed us, with a
known-peers entry for it. -/
def stFromPeer : TcpState :=
  { emptyState with connections := [connFromPeer], known_peers := [(peerA, 0)] }

/-- A state holding the connection to a peer we dialed, with a
known-peers entry for it. -/
def stToPeer : TcpState :=
  { emptyState with connections := [connToPeer], known_peers := [(peerA, 0)] }

/-- A state with one pending address, one active connection and two
node-level tasks, used to exercise `shut_down`. -/
def stShut : TcpState :=
  { stToPeer with connecting := [⟨.v4 10 0 0 2, 9⟩], tasks := [5, 6] }

/-! ## Helper lemmas -/

/-- The errors `enable_protocol` can produce: a broken pipe from a dropped
reply endpoint, or an error the handler itself replied with. -/
theorem enable_protocol_error_shape (slot : Option Handler) (c : Connection) (e : IoError)
    (h : enable_protocol slot c = .error e) :
    (e = .brokenPipe ∧ ∃ hd, slot = some hd ∧ hd c = none) ∨
      (∃ hd, slot = some hd ∧ hd c = some (.error e)) := by
  cases hs : slot with
  | none => rw [hs] at h; exact absurd h (by simp [enable_protocol])
  | some hd =>
    rw [hs] at h
    cases hr : hd c with
    | none =>
      left
      refine ⟨?_, hd, rfl, hr⟩
      simpa [enable_protocol, hr] using h.symm
    | some r =>
      cases r with
      | ok c' => exact absurd h (by simp [enable_protocol, hr])
      | error e' =>
        right
        refine ⟨hd, rfl, ?_⟩
        have : e' = e := by simpa [enable_protocol, hr] using h
        rw [hr, this]

/-- The errors `enable_protocols` can produce: a broken pipe, or an error
replied by one of the three pipeline handlers. -/
theorem enable_protocols_error_shape (p : Protocols) (c : Connection) (e : IoError)
    (h : enable_protocols p c = .error e) :
    e = .brokenPipe ∨
      (∃ hd c', p.handshake = some hd ∧ hd c' = some (.error e)) ∨
      (∃ hd c', p.reading = some hd ∧ hd c' = some (.error e)) ∨
      (∃ hd c', p.writing = some hd ∧ hd c' = some (.error e)) := by
  unfold enable_protocols at h
  cases h1 : enable_protocol p.handshake c with
  | error e1 =>
    rw [h1] at h
    injection h with he
    rcases enable_protocol_error_shape _ _ _ (he ▸ h1) with ⟨hbp, _⟩ | ⟨hd, hs, hr⟩
    · exact Or.inl hbp
    · exact Or.inr (Or.inl ⟨hd, c, hs, hr⟩)
  | ok c1 =>
    rw [h1] at h
    simp only at h
    cases h2 : enable_protocol p.reading (split_stream c1) with
    | error e2 =>
      rw [h2] at h
      injection h with he
      rcases enable_protocol_error_shape _ _ _ (he ▸ h2) with ⟨hbp, _⟩ | ⟨hd, hs, hr⟩
      · exact Or.inl hbp
      · exact Or.inr (Or.inr (Or.inl ⟨hd, split_stream c1, hs, hr⟩))
    | ok c2 =>
      rw [h2] at h
      simp only at h
      cases h3 : enable_protocol p.writing c2 with
      | error e3 =>
        rw [h3] at h
        injection h with he
        rcases enable_protocol_error_shape _ _ _ (he ▸ h3) with ⟨hbp, _⟩ | ⟨hd, hs, hr⟩
        · exact Or.inl hbp
        · exact Or.inr (Or.inr (Or.inr ⟨hd, c2, hs, hr⟩))
      | ok c3 => rw [h3] at h; simp at h

/-- `disconnect` always leaves the active map equal to the previous map
with the target address filtered out. -/
theorem disconnect_connections (p : Protocols) (st : TcpState) (a : SocketAddr) :
    (disconnect p st a).2.connections =
      st.connections.filter (fun c => !(c.addr == a)) := by
  unfold disconnect
  cases st.connections.find? (fun c => c.addr == a) with
  | none => rfl
  | some conn =>
    dsimp only
    split <;> rfl

/-- `disconnect` does not touch the connecting set. -/
theorem disconnect_connecting (p : Protocols) (st : TcpState) (a : SocketAddr) :
    (disconnect p st a).2.connecting = st.connecting := by
  unfold disconnect
  cases st.connections.find? (fun c => c.addr == a) with
  | none => rfl
  | some conn =>
    dsimp only
    split <;> rfl

/-- `disconnect` does not touch the node-level task list. -/
theorem disconnect_tasks (p : Protocols) (st : TcpState) (a : SocketAddr) :
    (disconnect p st a).2.tasks = st.tasks := by
  unfold disconnect
  cases st.connections.find? (fun c => c.addr == a) with
  | none => rfl
  | some conn =>
    dsimp only
    split <;> rfl

/-- `disconnect` never un-aborts a task. -/
theorem disconnect_aborted_mono (p : Protocols) (st : TcpState) (a : SocketAddr) :
    ∀ x ∈ st.aborted, x ∈ (disconnect p st a).2.aborted := by
  intro x hx
  unfold disconnect
  cases st.connections.find? (fun c => c.addr == a) with
  | none => exact hx
  | some conn =>
    dsimp only
    split <;> exact List.mem_append_left _ hx

/-- Disconnecting from every address that covers the active map empties
the active map. -/
theorem disconnect_all_connections (p : Protocols) (addrs : List SocketAddr) :
    ∀ st : TcpState, (∀ c ∈ st.connections, c.addr ∈ addrs) →
      (disconnect_all p st addrs).connections = [] := by
  induction addrs with
  | nil =>
    intro st h
    cases hc : st.connections with
    | nil => rw [disconnect_all, hc]
    | cons c rest =>
      have := h c (by rw [hc]; exact List.mem_cons_self c rest)
      simp at this
  | cons a rest ih =>
    intro st h
    rw [disconnect_all]
    apply ih
    intro c hc
    rw [disconnect_connections] at hc
    rcases List.mem_filter.mp hc with ⟨hcmem, hcne⟩
    rcases List.mem_cons.mp (h c hcmem) with heq | hmem
    · rw [heq] at hcne; simp at hcne
    · exact hmem

/-- The disconnect loop does not touch the connecting set. -/
theorem disconnect_all_connecting (p : Protocols) (addrs : List SocketAddr) :
    ∀ st : TcpState, (disconnect_all p st addrs).connecting = st.connecting := by
  induction addrs with
  | nil => intro st; rw [disconnect_all]
  | cons a rest ih =>
    intro st
    rw [disconnect_all, ih, disconnect_connecting]

/-- The disconnect loop does not touch the node-level task list. -/
theorem disconnect_all_tasks (p : Protocols) (addrs : List SocketAddr) :
    ∀ st : TcpState, (disconnect_all p st addrs).tasks = st.tasks := by
  induction addrs with
  | nil => intro st; rw [disconnect_all]
  | cons a rest ih =>
    intro st
    rw [disconnect_all, ih, disconnect_tasks]

/-- The disconnect loop never un-aborts a task. -/
theorem disconnect_all_aborted_mono (p : Protocols) (addrs : List SocketAddr) :
    ∀ (st : TcpState) (x : TaskHandle), x ∈ st.aborted →
      x ∈ (disconnect_all p st addrs).aborted := by
  induction addrs with
  | nil => intro st x hx; rw [disconnect_all]; exact hx
  | cons a rest ih =>
    intro st x hx
    rw [disconnect_all]
    exact ih _ x (disconnect_aborted_mono p st a x hx)

/-- Every active connection's address is listed by `connected_addrs`. -/
theorem mem_connected_addrs (st : TcpState) (c : Connection) (h : c ∈ st.connections) :
    c.addr ∈ st.connected_addrs :=
  List.mem_map_of_mem _ h

/-! ## Claims -/

/-- C10: deserializing the bytes produced by serializing any `Ping` value
whose `u32` fields are in range yields back exactly that value. -/
theorem ping_roundtrip (p : Ping) (h1 : p.version < 4294967296)
    (h2 : p.fork_depth < 4294967296) :
    Ping.deserialize (Ping.serialize p) = .ok p := by
  obtain ⟨v, f, nt, s⟩ := p
  simp only [Ping.serialize, Ping.deserialize, u32LE, readU32LE, List.cons_append,
    List.nil_append]
  simp only at h1 h2
  have hv : v % 256 + 256 * (v / 256 % 256) + 65536 * (v / 65536 % 256) +
      16777216 * (v / 16777216 % 256) = v := by omega
  have hf : f % 256 + 256 * (f / 256 % 256) + 65536 * (f / 65536 % 256) +
      16777216 * (f / 16777216 % 256) = f := by omega
  have hnt : nt.tag % 256 + 256 * (nt.tag / 256 % 256) + 65536 * (nt.tag / 65536 % 256) +
      16777216 * (nt.tag / 16777216 % 256) = nt.tag := by
    cases nt <;> simp [NodeType.tag]
  have hs : s.tag % 256 + 256 * (s.tag / 256 % 256) + 65536 * (s.tag / 65536 % 256) +
      16777216 * (s.tag / 16777216 % 256) = s.tag := by
    cases s <;> simp [Status.tag]
  rw [hv, hf, hnt, hs]
  have hnt2 : NodeType.ofTag nt.tag = some nt := by cases nt <;> rfl
  have hs2 : Status.ofTag s.tag = some s := by cases s <;> rfl
  simp [hnt2, hs2]

/-- Witness for C10 at a concrete `Ping`. -/
theorem ping_roundtrip_witness :
    Ping.deserialize (Ping.serialize ⟨12, 4, .Client, .Ready⟩) = .ok ⟨12, 4, .Client, .Ready⟩ :=
  ping_roundtrip ⟨12, 4, .Client, .Ready⟩ (by decide) (by decide)

/-- C5: `can_add_connection` admits exactly when both the active count and
the active-plus-pending count are below `max_connections`; and, away from
the self-dial case and with no other source of a permission-denied error,
`connect` fails with `PermissionDenied` exactly when the check denies. -/
theorem can_add_connection_spec (p : Protocols) (st : TcpState) (addr : SocketAddr)
    (dial : Except IoError Stream)
    (hself : is_self_connect st addr = false)
    (hdial : dial ≠ .error .permissionDenied)
    (hhs : ∀ hd c, p.handshake = some hd → hd c ≠ some (.error .permissionDenied))
    (hrd : ∀ hd c, p.reading = some hd → hd c ≠ some (.error .permissionDenied))
    (hwr : ∀ hd c, p.writing = some hd → hd c ≠ some (.error .permissionDenied)) :
    (can_add_connection st = true ↔
      st.num_connected < st.max_connections ∧
        st.num_connected + st.num_connecting < st.max_connections) ∧
    ((connect p st addr dial).1 = .error .permissionDenied ↔
      can_add_connection st = false) := by
  constructor
  · unfold can_add_connection
    dsimp only
    split_ifs with ha hb <;> simp <;> omega
  · by_cases hca : can_add_connection st = true
    · rw [hca]
      simp only [Bool.true_eq_false, iff_false]
      intro h
      by_cases hic : st.is_connected addr = true
      · simp [connect, hself, hca, hic] at h
      · by_cases hcc : addr ∈ st.connecting
        · simp [connect, hself, hca, hic, hcc] at h
        · cases hd : dial with
          | error e =>
            simp [connect, hself, hca, hic, hcc, hd] at h
            exact hdial (by rw [hd, h])
          | ok stream =>
            cases hep : enable_protocols p
                (Connection.new addr stream ConnectionSide.Initiator.not) with
            | error e =>
              simp [connect, hself, hca, hic, hcc, hd, adapt_stream, hep] at h
              rcases enable_protocols_error_shape _ _ _ (h ▸ hep) with
                hbp | ⟨hd', c', hs', hr'⟩ | ⟨hd', c', hs', hr'⟩ | ⟨hd', c', hs', hr'⟩
              · exact absurd hbp (by simp)
              · exact hhs hd' c' hs' hr'
              · exact hrd hd' c' hs' hr'
              · exact hwr hd' c' hs' hr'
            | ok conn =>
              simp [connect, hself, hca, hic, hcc, hd, adapt_stream, hep] at h
    · simp only [Bool.not_eq_true] at hca
      rw [hca]
      simp only [iff_true]
      unfold connect
      rw [hself]
      simp [hca]

/-- Witness for C5 at a concrete state (capacity 0, so admission denies
and `connect` returns `PermissionDenied`). -/
theorem can_add_connection_spec_witness :
    (can_add_connection { emptyState with max_connections := 0 } = true ↔
      TcpState.num_connected { emptyState with max_connections := 0 } < 0 ∧
        TcpState.num_connected { emptyState with max_connections := 0 } +
          TcpState.num_connecting { emptyState with max_connections := 0 } < 0) ∧
    ((connect noProtocols { emptyState with max_connections := 0 } peerA (.ok 0)).1 =
        .error .permissionDenied ↔
      can_add_connection { emptyState with max_connections := 0 } = false) :=
  can_add_connection_spec noProtocols { emptyState with max_connections := 0 } peerA (.ok 0)
    (by decide) (by simp) (by simp [noProtocols]) (by simp [noProtocols])
    (by simp [noProtocols])

/-- C4: with a listening address set, dialing it — or dialing loopback on
the same port — fails with `AddrInUse` and leaves the state (hence the
number of connecting peers) untouched, regardless of the admission,
duplicate or connecting-set situation. -/
theorem connect_self_dial (p : Protocols) (st : TcpState) (addr : SocketAddr)
    (dial : Except IoError Stream) (la : SocketAddr)
    (hla : st.listening_addr = some la)
    (h : addr = la ∨ (addr.ip.is_loopback = true ∧ addr.port = la.port)) :
    connect p st addr dial = (.error .addrInUse, st) ∧
    (connect p st addr dial).2.num_connecting = st.num_connecting := by
  have hself : is_self_connect st addr = true := by
    unfold is_self_connect
    rw [hla]
    rcases h with h | ⟨h1, h2⟩
    · simp [h]
    · simp [h1, h2]
  have hc : connect p st addr dial = (.error .addrInUse, st) := by
    unfold connect
    rw [hself]
    simp
  exact ⟨hc, by rw [hc]⟩

/-- Witness for C4: a node listening on `192.168.0.1:4130`, dialing
loopback on the same port. -/
theorem connect_self_dial_witness :
    connect noProtocols
        { emptyState with listening_addr := some ⟨.v4 192 168 0 1, 4130⟩ }
        ⟨.v4 127 0 0 1, 4130⟩ (.ok 0) =
      (.error .addrInUse, { emptyState with listening_addr := some ⟨.v4 192 168 0 1, 4130⟩ }) ∧
    (connect noProtocols
        { emptyState with listening_addr := some ⟨.v4 192 168 0 1, 4130⟩ }
        ⟨.v4 127 0 0 1, 4130⟩ (.ok 0)).2.num_connecting =
      TcpState.num_connecting { emptyState with listening_addr := some ⟨.v4 192 168 0 1, 4130⟩ } :=
  connect_self_dial noProtocols _ _ (.ok 0) ⟨.v4 192 168 0 1, 4130⟩ rfl (Or.inr (by decide))

/-- C9: whenever `connect` fails on one of the checks that precede the
TCP dial (self-dial, admission, already-connected, already-connecting),
the returned error is one of `AddrInUse`, `PermissionDenied`,
`AlreadyExists`, and the state is returned exactly as it was — in
particular the connecting set is unchanged. -/
theorem connect_early_error_state (p : Protocols) (st : TcpState) (addr : SocketAddr)
    (dial : Except IoError Stream)
    (h : is_self_connect st addr = true ∨ can_add_connection st = false ∨
      st.is_connected addr = true ∨ st.connecting.contains addr = true) :
    ((connect p st addr dial).1 = .error .addrInUse ∨
      (connect p st addr dial).1 = .error .permissionDenied ∨
      (connect p st addr dial).1 = .error .alreadyExists) ∧
    (connect p st addr dial).2 = st := by
  by_cases h1 : is_self_connect st addr = true
  · unfold connect; rw [h1]; simp
  · simp only [Bool.not_eq_true] at h1
    by_cases h2 : can_add_connection st = true
    · by_cases h3 : st.is_connected addr = true
      · unfold connect; rw [h1, h3]; simp [h2]
      · simp only [Bool.not_eq_true] at h3
        by_cases h4 : st.connecting.contains addr = true
        · unfold connect; rw [h1, h3, h4]; simp [h2]
        · simp only [Bool.not_eq_true] at h4
          rcases h with h | h | h | h
          · rw [h1] at h; exact absurd h (by simp)
          · rw [h2] at h; exact absurd h (by simp)
          · rw [h3] at h; exact absurd h (by simp)
          · rw [h4] at h; exact absurd h (by simp)
    · simp only [Bool.not_eq_true] at h2
      unfold connect; rw [h1, h2]; simp

/-- C6: the pipeline is the fixed composition handshake, then stream
split, then reading, then writing; an absent slot passes the connection
through unchanged; and the split step acts only when the connection still
holds an unsplit stream, in which case it moves the halves into the
`reader` and `writer` fields. -/
theorem enable_protocols_pipeline (p : Protocols) (conn : Connection) :
    enable_protocols p conn =
      (enable_protocol p.handshake conn).bind (fun c1 =>
        (enable_protocol p.reading (split_stream c1)).bind (fun c2 =>
          enable_protocol p.writing c2)) ∧
    (∀ c, enable_protocol none c = .ok c) ∧
    (∀ c s, c.stream = some s →
      split_stream c = { c with stream := none, reader := some s, writer := some s }) ∧
    (∀ c, c.stream = none → split_stream c = c) := by
  refine ⟨?_, fun c => rfl, ?_, ?_⟩
  · unfold enable_protocols
    cases h1 : enable_protocol p.handshake conn with
    | error e => simp [Except.bind]
    | ok c1 =>
      simp only [Except.bind]
      cases h2 : enable_protocol p.reading (split_stream c1) with
      | error e => simp [Except.bind]
      | ok c2 =>
        simp only [Except.bind]
        cases h3 : enable_protocol p.writing c2 with
        | error e => simp
        | ok c3 => simp
  · intro c s h
    unfold split_stream
    rw [h]
  · intro c h
    unfold split_stream
    rw [h]

/-- Witness for C6: the inner pass-through and split statements applied
at concrete connections. -/
theorem enable_protocols_pipeline_witness :
    split_stream (Connection.new peerA 7 .Responder) =
      { Connection.new peerA 7 .Responder with
        stream := none, reader := some 7, writer := some 7 } ∧
    enable_protocol none (Connection.new peerA 7 .Responder) =
      .ok (Connection.new peerA 7 .Responder) :=
  ⟨(enable_protocols_pipeline noProtocols (Connection.new peerA 7 .Responder)).2.2.1
      (Connection.new peerA 7 .Responder) 7 rfl,
    (enable_protocols_pipeline noProtocols (Connection.new peerA 7 .Responder)).2.1
      (Connection.new peerA 7 .Responder)⟩

/-- C7: for each enabled pipeline slot, a handler that drops its reply
endpoint makes the pipeline fail with `BrokenPipe`, and a handler that
replies with an error has that error propagated verbatim — all the way
out of `connect` when the preceding checks pass. -/
theorem handler_error_propagation (p : Protocols) :
    (∀ hd conn, p.handshake = some hd → hd conn = none →
      enable_protocols p conn = .error .brokenPipe) ∧
    (∀ hd conn e, p.handshake = some hd → hd conn = some (.error e) →
      enable_protocols p conn = .error e) ∧
    (∀ hd conn c1, p.reading = some hd → enable_protocol p.handshake conn = .ok c1 →
      hd (split_stream c1) = none → enable_protocols p conn = .error .brokenPipe) ∧
    (∀ hd conn c1 e, p.reading = some hd → enable_protocol p.handshake conn = .ok c1 →
      hd (split_stream c1) = some (.error e) → enable_protocols p conn = .error e) ∧
    (∀ hd conn c1 c2, p.writing = some hd → enable_protocol p.handshake conn = .ok c1 →
      enable_protocol p.reading (split_stream c1) = .ok c2 →
      hd c2 = none → enable_protocols p conn = .error .brokenPipe) ∧
    (∀ hd conn c1 c2 e, p.writing = some hd → enable_protocol p.handshake conn = .ok c1 →
      enable_protocol p.reading (split_stream c1) = .ok c2 →
      hd c2 = some (.error e) → enable_protocols p conn = .error e) ∧
    (∀ st addr stream e,
      is_self_connect st addr = false → can_add_connection st = true →
      st.is_connected addr = false → addr ∉ st.connecting →
      enable_protocols p (Connection.new addr stream .Responder) = .error e →
      (connect p st addr (.ok stream)).1 = .error e) := by
  refine ⟨?_, ?_, ?_, ?_, ?_, ?_, ?_⟩
  · intro hd conn hs hr
    simp [enable_protocols, enable_protocol, hs, hr]
  · intro hd conn e hs hr
    simp [enable_protocols, enable_protocol, hs, hr]
  · intro hd conn c1 hs h1 hr
    unfold enable_protocols
    rw [h1]
    simp [enable_protocol, hs, hr]
  · intro hd conn c1 e hs h1 hr
    unfold enable_protocols
    rw [h1]
    simp [enable_protocol, hs, hr]
  · intro hd conn c1 c2 hs h1 h2 hr
    unfold enable_protocols
    rw [h1]
    dsimp only
    rw [h2]
    simp [enable_protocol, hs, hr]
  · intro hd conn c1 c2 e hs h1 h2 hr
    unfold enable_protocols
    rw [h1]
    dsimp only
    rw [h2]
    simp [enable_protocol, hs, hr]
  · intro st addr stream e h1 h2 h3 h4 hep
    have hep' : enable_protocols p (Connection.new addr stream ConnectionSide.Initiator.not) =
        .error e := hep
    simp [connect, h1, h2, h3, h4, adapt_stream, hep']

/-- Witness for C7: a handshake handler that drops its reply endpoint
makes `connect` fail with `BrokenPipe`. -/
theorem handler_error_propagation_witness :
    (connect { noProtocols with handshake := some (fun _ => none) } emptyState peerA
        (.ok 0)).1 = .error .brokenPipe :=
  (handler_error_propagation { noProtocols with handshake := some (fun _ => none) }).2.2.2.2.2.2
    emptyState peerA 0 .brokenPipe rfl rfl rfl (by simp [emptyState])
    ((handler_error_propagation
        { noProtocols with handshake := some (fun _ => none) }).1
      (fun _ => none) (Connection.new peerA 0 .Responder) rfl rfl)

/-- C8: the binding policy of `Tcp::new`: with a desired port whose bind
fails, the error is propagated when `allow_random_port` is off and the
bind falls back to port 0 when it is on; with no desired port and no
random-port permission (but a listener IP), the configuration is
rejected (the code panics). -/
theorem tcp_new_binding (config : Config) (bind : SocketAddr → Except IoError SocketAddr)
    (ip : IpAddr) (hip : config.listener_ip = some ip) :
    (∀ port e, config.desired_listening_port = some port → bind ⟨ip, port⟩ = .error e →
      (config.allow_random_port = false → procure_listener config bind = .err e) ∧
      (config.allow_random_port = true →
        procure_listener config bind =
          match bind ⟨ip, 0⟩ with
          | .ok listener => .ok (some listener)
          | .error e' => .err e')) ∧
    (config.desired_listening_port = none → config.allow_random_port = false →
      procure_listener config bind = .panicked) := by
  constructor
  · intro port e hport hbind
    constructor
    · intro hrand
      simp [procure_listener, hip, hport, hbind, hrand]
    · intro hrand
      simp [procure_listener, hip, hport, hbind, hrand]
  · intro hport hrand
    simp [procure_listener, hip, hport, hrand]

/-- Witness for C8 at a concrete configuration and bind function: the
desired port 4130 is unavailable and `allow_random_port` is off, so the
bind error is propagated. -/
theorem tcp_new_binding_witness :
    procure_listener
        { name := none, listener_ip := some (.v4 0 0 0 0),
          desired_listening_port := some 4130, allow_random_port := false,
          max_connections := 100 }
        (fun _ => .error (.osError 98)) =
      .err (.osError 98) :=
  ((tcp_new_binding
      { name := none, listener_ip := some (.v4 0 0 0 0),
        desired_listening_port := some 4130, allow_random_port := false,
        max_connections := 100 }
      (fun _ => .error (.osError 98)) (.v4 0 0 0 0) rfl).1
    4130 (.osError 98) rfl rfl).1 rfl

/-- `KnownPeers::add` does not touch the connecting set. -/
theorem known_peers_add_connecting (st : TcpState) (a : SocketAddr) :
    (st.known_peers_add a).connecting = st.connecting := by
  unfold TcpState.known_peers_add
  split <;> rfl

/-- `KnownPeers::add` does not touch the active map. -/
theorem known_peers_add_connections (st : TcpState) (a : SocketAddr) :
    (st.known_peers_add a).connections = st.connections := by
  unfold TcpState.known_peers_add
  split <;> rfl

/-- C1 (amended): `disconnect` on a connected address reports a removal,
and drops the known-peers entry exactly when the stored (peer's) side is
`Initiator` — that is, when the peer dialed us; for peers we dialed
(stored side `Responder`) the entry is kept. -/
theorem disconnect_known_peers_removal (p : Protocols) (st : TcpState) (addr : SocketAddr)
    (conn : Connection)
    (hfind : st.connections.find? (fun c => c.addr == addr) = some conn)
    (hknown : st.known addr = true) :
    (disconnect p st addr).1 = true ∧
    ((disconnect p st addr).2.known addr = false ↔ conn.side = .Initiator) := by
  have haddr : conn.addr = addr := by
    have h := List.find?_some hfind
    simpa using h
  have hfilter : ∀ l : List (SocketAddr × Nat),
      (l.filter (fun q => !(q.1 == addr))).any (fun q => q.1 == addr) = false := by
    intro l
    induction l with
    | nil => rfl
    | cons x xs ih =>
      by_cases hx : x.1 = addr
      · simp [List.filter_cons, hx, ih]
      · simp [List.filter_cons, hx, ih]
  unfold disconnect
  rw [hfind]
  dsimp only
  refine ⟨rfl, ?_⟩
  cases hside : conn.side with
  | Initiator =>
    split
    next =>
      rw [haddr]
      refine iff_of_true ?_ rfl
      unfold TcpState.known TcpState.known_peers_remove
      dsimp only
      exact hfilter st.known_peers
    next h => exact absurd (by decide) h
  | Responder =>
    split
    next h => exact absurd h (by decide)
    next =>
      unfold TcpState.known at hknown ⊢
      dsimp only
      rw [hknown]
      simp

/-- Witness for C1 (amended): disconnecting the peer that dialed us
removes its known-peers entry. -/
theorem disconnect_known_peers_removal_witness :
    (disconnect noProtocols stFromPeer peerA).1 = true ∧
    ((disconnect noProtocols stFromPeer peerA).2.known peerA = false ↔
      connFromPeer.side = .Initiator) :=
  disconnect_known_peers_removal noProtocols stFromPeer peerA connFromPeer
    (by decide) (by decide)

/-- C1 counterexample: a connection whose stored side is `Responder` (we
were the initiator); the claim requires the known-peers entry to be
removed, but `disconnect` keeps it. -/
theorem disconnect_keeps_peer_we_dialed_cex :
    connToPeer.side = .Responder ∧
    (disconnect noProtocols stToPeer peerA).1 = true ∧
    (disconnect noProtocols stToPeer peerA).2.known peerA = true := by
  refine ⟨rfl, by decide, by decide⟩

/-- On a list of addresses, `contains` agrees with membership. -/
theorem addr_contains_iff (l : List SocketAddr) (a : SocketAddr) :
    l.contains a = true ↔ a ∈ l := by
  simp [List.contains_iff_exists_mem_beq]

/-- C2 (amended): during the adapt pipeline the observable occupancy of
the two sets for the address moves through exactly the three instants
connecting-only, then transiently both (after the connection is installed
and before the connecting entry is released), then active-only; it is
never in neither set. -/
theorem adapt_stream_trace_occupancy (p : Protocols) (st : TcpState) (stream : Stream)
    (addr : SocketAddr) (side : ConnectionSide) (conn' : Connection)
    (hmem : addr ∈ st.connecting)
    (hnd : st.connecting.Nodup)
    (hconn : st.is_connected addr = false)
    (hok : enable_protocols p (Connection.new addr stream side.not) = .ok conn')
    (haddr : conn'.addr = addr) :
    (adapt_stream_trace p st stream addr side).map
        (fun s => (s.connecting.contains addr, s.is_connected addr)) =
      [(true, false), (true, true), (false, true)] := by
  unfold adapt_stream_trace
  dsimp only
  rw [hok]
  dsimp only [List.map]
  have h1c : (st.known_peers_add addr).connecting.contains addr = true := by
    rw [known_peers_add_connecting]
    exact (addr_contains_iff _ _).mpr hmem
  have h1a : ((st.known_peers_add addr).connections.any (fun c => c.addr == addr)) = false := by
    rw [known_peers_add_connections]
    exact hconn
  have h2c : ∀ c : Connection,
      ((st.known_peers_add addr).connections_add c).connecting.contains addr = true := by
    intro c
    unfold TcpState.connections_add
    exact h1c
  have hany : (((st.known_peers_add addr).connections_add
      { conn' with readiness_notifier := none }).connections.any
        (fun c => c.addr == addr)) = true := by
    unfold TcpState.connections_add
    simp [haddr]
  have h3c : (((st.known_peers_add addr).connections_add
        { conn' with readiness_notifier := none }).connecting.erase addr).contains addr =
      false := by
    unfold TcpState.connections_add
    rw [known_peers_add_connecting]
    rw [Bool.eq_false_iff]
    intro hc
    exact hnd.not_mem_erase ((addr_contains_iff _ _).mp hc)
  unfold TcpState.is_connected
  dsimp only
  rw [h1c, h1a, h2c, hany, h3c]

/-- Witness for C2 (amended) at a concrete state and stream. -/
theorem adapt_stream_trace_occupancy_witness :
    (adapt_stream_trace noProtocols { emptyState with connecting := [peerA] } 7 peerA
        .Responder).map
        (fun s => (s.connecting.contains peerA, s.is_connected peerA)) =
      [(true, false), (true, true), (false, true)] :=
  adapt_stream_trace_occupancy noProtocols { emptyState with connecting := [peerA] } 7
    peerA .Responder
    { addr := peerA, side := .Initiator, stream := none, reader := some 7,
      writer := some 7, tasks := [], readiness_notifier := none }
    (by decide) (by decide) (by decide) rfl rfl

/-- C2 counterexample: at the instant after the pipeline installs the
connection and before it releases the connecting entry, the address is in
both the connecting set and the active map, contradicting the claimed
exclusive-or at every instant. -/
theorem connecting_active_overlap_cex :
    ∃ s ∈ adapt_stream_trace noProtocols { emptyState with connecting := [peerA] } 7 peerA
        .Responder,
      (s.connecting.contains peerA && s.is_connected peerA) = true := by decide

/-- C3 (amended): after `shut_down` the active map is empty, the task
list is empty and all of its former handles are aborted, and a second
`shut_down` is a no-op; the connecting set, however, is left exactly as
it was (it is not cleared). -/
theorem shut_down_spec (p : Protocols) (st : TcpState) :
    (shut_down p st).connections = [] ∧
    (shut_down p st).tasks = [] ∧
    (∀ t ∈ st.tasks, t ∈ (shut_down p st).aborted) ∧
    (shut_down p st).connecting = st.connecting ∧
    shut_down p (shut_down p st) = shut_down p st := by
  have hconn : ∀ s : TcpState, (shut_down p s).connections = [] := by
    intro s
    unfold shut_down
    dsimp only
    exact disconnect_all_connections p _ _ (fun c hc => mem_connected_addrs _ c hc)
  have htasks : ∀ s : TcpState, (shut_down p s).tasks = [] := by
    intro s
    unfold shut_down
    dsimp only
    rw [disconnect_all_tasks]
    cases h : s.tasks <;> rfl
  have hconnecting : ∀ s : TcpState, (shut_down p s).connecting = s.connecting := by
    intro s
    unfold shut_down
    dsimp only
    rw [disconnect_all_connecting]
    cases h : s.tasks <;> rfl
  have habort : ∀ s : TcpState, ∀ t ∈ s.tasks, t ∈ (shut_down p s).aborted := by
    intro s t ht
    unfold shut_down
    dsimp only
    cases htk : s.tasks with
    | nil => rw [htk] at ht; simp at ht
    | cons t0 ts =>
      rw [htk] at ht
      rcases List.mem_cons.mp ht with heq | hmem
      · subst heq
        apply List.mem_append_left
        apply disconnect_all_aborted_mono
        exact List.mem_append_right _ (by simp)
      · exact List.mem_append_right _ (by simpa using hmem)
  have hid : ∀ s : TcpState, s.tasks = [] → s.connections = [] → shut_down p s = s := by
    intro s h1 h2
    obtain ⟨la, mc, cg, cs, kp, tk, ab⟩ := s
    dsimp only at h1 h2
    subst h1
    subst h2
    simp [shut_down, TcpState.connected_addrs, disconnect_all]
  exact ⟨hconn st, htasks st, habort st, hconnecting st,
    hid _ (htasks st) (hconn st)⟩

/-- Witness for C3 (amended) at a concrete state with one pending
address, one active connection and two tasks: the listener task handle 5
is aborted, the maps are emptied, and a second shutdown is a no-op. -/
theorem shut_down_spec_witness :
    (shut_down noProtocols stShut).connections = [] ∧
    (shut_down noProtocols stShut).tasks = [] ∧
    (5 : TaskHandle) ∈ (shut_down noProtocols stShut).aborted ∧
    (shut_down noProtocols stShut).connecting = stShut.connecting ∧
    shut_down noProtocols (shut_down noProtocols stShut) = shut_down noProtocols stShut :=
  ⟨(shut_down_spec noProtocols stShut).1,
    (shut_down_spec noProtocols stShut).2.1,
    (shut_down_spec noProtocols stShut).2.2.1 5 (by decide),
    (shut_down_spec noProtocols stShut).2.2.2.1,
    (shut_down_spec noProtocols stShut).2.2.2.2⟩

/-- C3 counterexample: a state with a pending connection attempt; after
`shut_down` the connecting set still holds the address, contradicting the
claim that it is empty. -/
theorem shut_down_connecting_cex :
    (shut_down noProtocols { emptyState with connecting := [peerA] }).connecting = [peerA] ∧
    peerA ∈ (shut_down noProtocols { emptyState with connecting := [peerA] }).connecting := by
  refine ⟨by decide, by decide⟩

/-- Witness for C9: connecting to an address already in the connecting
set fails and preserves the state. -/
theorem connect_early_error_state_witness :
    ((connect noProtocols { emptyState with connecting := [peerA] } peerA (.ok 0)).1 =
        .error .addrInUse ∨
      (connect noProtocols { emptyState with connecting := [peerA] } peerA (.ok 0)).1 =
        .error .permissionDenied ∨
      (connect noProtocols { emptyState with connecting := [peerA] } peerA (.ok 0)).1 =
        .error .alreadyExists) ∧
    (connect noProtocols { emptyState with connecting := [peerA] } peerA (.ok 0)).2 =
      { emptyState with connecting := [peerA] } :=
  connect_early_error_state noProtocols { emptyState with connecting := [peerA] } peerA
    (.ok 0) (Or.inr (Or.inr (Or.inr (by decide))))

end SnarkOS
